import Mathlib

/-!
Verification of the Exonum service-runtime dispatcher, configuration service and
wallet schema against their specification.

The development shallowly embeds three components of the repository:

1. the configuration service (`src/src/lib.rs`): the `ConfigurationSchema`
   tables (`propose_data_by_config_hash`, `config_hash_by_ordinal`,
   `votes_by_config_hash`) and the transaction logic of `TxConfigPropose` and
   `TxConfigVote`;
2. the runtime dispatcher (`src/exonum/src/runtime/dispatcher/mod.rs`):
   `Dispatcher::start_service`, `Dispatcher::call`, `Dispatcher::execute` and
   the deferred-action machinery;
3. the cryptocurrency wallet schema
   (`src/examples/cryptocurrency-advanced/backend/src/schema.rs`).

Keys, hashes and opaque payloads are modelled as `Nat`; Merkle root hashes are
modelled by concrete deterministic functions of the list contents (only
determinism is relied upon).  Merkle tables are modelled as association lists.
Fallible code returns `Option` (with `none` standing for a `panic!` or a failed
`expect`/`unwrap`) or `Except`.
-/

set_option autoImplicit false

/-! ## Association-list helpers

The persistent key-value tables (`MerklePatriciaTable`, `MapTable`, `HashMap`)
are modelled as association lists with `lookupA` / `upsertA`. -/

/-- Lookup in an association list (model of map `get`). -/
def lookupA {α β : Type} [DecidableEq α] : List (α × β) → α → Option β
  | [], _ => none
  | (k, v) :: rest, key => if k = key then some v else lookupA rest key

/-- Insert-or-replace in an association list (model of map `put`/`insert`). -/
def upsertA {α β : Type} [DecidableEq α] : List (α × β) → α → β → List (α × β)
  | [], key, v => [(key, v)]
  | (k, w) :: rest, key, v =>
    if k = key then (key, v) :: rest else (k, w) :: upsertA rest key v

theorem lookupA_upsertA_self {α β : Type} [DecidableEq α]
    (m : List (α × β)) (k : α) (v : β) : lookupA (upsertA m k v) k = some v := by
  induction m with
  | nil => simp [lookupA, upsertA]
  | cons hd tl ih =>
    obtain ⟨k', v'⟩ := hd
    by_cases h : k' = k
    · simp [lookupA, upsertA, h]
    · simp [lookupA, upsertA, h, ih]

theorem lookupA_upsertA_ne {α β : Type} [DecidableEq α]
    (m : List (α × β)) (k k' : α) (v : β) (h : k ≠ k') :
    lookupA (upsertA m k v) k' = lookupA m k' := by
  induction m with
  | nil => simp [lookupA, upsertA, h]
  | cons hd tl ih =>
    obtain ⟨k0, v0⟩ := hd
    by_cases h0 : k0 = k
    · simp [lookupA, upsertA, h0, h]
    · by_cases h1 : k0 = k'
      · simp [lookupA, upsertA, h0, h1, Ne.symm h]
      · simp [lookupA, upsertA, h0, h1, ih]

theorem upsertA_self_of_lookupA {α β : Type} [DecidableEq α]
    (m : List (α × β)) (k : α) (v : β) (h : lookupA m k = some v) :
    upsertA m k v = m := by
  induction m with
  | nil => simp [lookupA] at h
  | cons hd tl ih =>
    obtain ⟨k0, v0⟩ := hd
    by_cases h0 : k0 = k
    · subst h0
      simp [lookupA] at h
      simp [upsertA, h]
    · simp [lookupA, h0] at h
      simp [upsertA, h0, ih h]

/-- `List.set` with the value already stored leaves the list unchanged. -/
theorem List.set_self_of_getElem? {α : Type} (l : List α) (i : Nat) (a : α)
    (h : l[i]? = some a) : l.set i a = l := by
  induction l generalizing i with
  | nil => simp at h
  | cons hd tl ih =>
    cases i with
    | zero => simp at h; simp [List.set, h]
    | succ j => simp at h; simp [List.set, ih j h]

/-! ## Configuration service: data model (`src/src/lib.rs`) -/

/-- `StoredConfiguration` (exonum core `blockchain::config`): the fields the
configuration service inspects.  `validators` is the list of validators' public
keys (keys modelled as `Nat`). -/
structure StoredConfiguration where
  previous_cfg_hash : Nat
  actual_from : Nat
  validators : List Nat
  deriving DecidableEq, Repr

/-- Hash of a configuration (`StoredConfiguration::hash`): the source hashes the
normalized JSON bytes; modelled as a deterministic encoding of the fields. -/
def StoredConfiguration.cfgHash (c : StoredConfiguration) : Nat :=
  Nat.pair c.previous_cfg_hash (Nat.pair c.actual_from (c.validators.foldr Nat.pair 0))

/-- The `cfg` string carried by `TxConfigPropose`: either the serialization of a
`StoredConfiguration` or bytes that do not deserialize. -/
inductive CfgStr where
  | valid (c : StoredConfiguration)
  | invalid (junk : Nat)
  deriving DecidableEq, Repr

/-- `StoredConfiguration::try_deserialize` / `StorageValue::deserialize` of the
`cfg` bytes; `none` models a parse failure (a panic at the non-try call sites,
handled at each call site below). -/
def deserializeCfg : CfgStr → Option StoredConfiguration
  | .valid c => some c
  | .invalid _ => none

/-- `TxConfigPropose` message: sender's public key and configuration string. -/
structure TxConfigPropose where
  fromPk : Nat
  cfg : CfgStr
  deriving DecidableEq, Repr

/-- `TxConfigVote` message: sender's public key and hash of a configuration. -/
structure TxConfigVote where
  fromPk : Nat
  cfg_hash : Nat
  deriving DecidableEq, Repr

/-- The `ZEROVOTE` sentinel: a `TxConfigVote` with all bytes set to zero. -/
def ZEROVOTE : TxConfigVote := ⟨0, 0⟩

/-- `StorageValueConfigProposeData`: a propose with the root hash and the fixed
length of its votes table. -/
structure StorageValueConfigProposeData where
  tx_propose : TxConfigPropose
  votes_history_hash : Nat
  num_votes : Nat
  deriving DecidableEq, Repr

/-- Root hash of a votes `MerkleTable` (`root_hash`): a deterministic function
of the list of votes. -/
def rootHash (l : List TxConfigVote) : Nat :=
  l.foldr (fun v acc => Nat.pair (Nat.pair v.fromPk v.cfg_hash) acc) 0

/-- Combined state of the blockchain schema and the configuration schema seen
through one storage `View`.

The first four fields model the exonum-core blockchain `Schema` used by the
configuration service.  Modelled from the spec: `blockchain::Schema`
(`configs()`, `actual_configuration()`, `following_configuration()`,
`current_height()`) is not under `src/`; per the spec, `configs` maps a
configuration hash to the configuration, `actual` is the configuration in
force, `following` is a configuration scheduled for a future height, and
`height` is the current blockchain height.

The last three fields are the `ConfigurationSchema` tables of
`src/src/lib.rs`; `votes_by_config_hash` is the family of per-config-hash
votes tables, with a missing key denoting the empty table. -/
structure CState where
  configs : List (Nat × StoredConfiguration)
  actual : StoredConfiguration
  following : Option StoredConfiguration
  height : Nat
  propose_data_by_config_hash : List (Nat × StorageValueConfigProposeData)
  config_hash_by_ordinal : List Nat
  votes_by_config_hash : List (Nat × List TxConfigVote)
  deriving DecidableEq, Repr

/-- Contents of the `votes_by_config_hash(config_hash)` table. -/
def getVotes (s : CState) (config_hash : Nat) : List TxConfigVote :=
  (lookupA s.votes_by_config_hash config_hash).getD []

/-- `Iterator::position` over a validator list (the index of the first
occurrence of a public key). -/
def listPos : List Nat → Nat → Option Nat
  | [], _ => none
  | x :: xs, k => if x = k then some 0 else (listPos xs k).map (· + 1)

theorem listPos_of_mem (l : List Nat) (k : Nat) (h : k ∈ l) :
    ∃ i, listPos l k = some i ∧ i < l.length := by
  induction l with
  | nil => simp at h
  | cons x xs ih =>
    by_cases hx : x = k
    · exact ⟨0, by simp [listPos, hx], by simp⟩
    · have hmem : k ∈ xs := by
        rcases List.mem_cons.mp h with h1 | h1
        · exact absurd h1.symm hx
        · exact h1
      obtain ⟨i, hpos, hlt⟩ := ih hmem
      exact ⟨i + 1, by simp [listPos, hx, hpos], by simp [Nat.succ_lt_succ hlt]⟩

/-! ## Configuration service: operations (`src/src/lib.rs`) -/

/-- `ConfigurationSchema::put_propose`.  `none` models a panic: the `cfg` bytes
failing `StorageValue::deserialize`, or the `.expect` on a missing previous
configuration. -/
def put_propose (s : CState) (tx_propose : TxConfigPropose) : Option CState :=
  match deserializeCfg tx_propose.cfg with
  | none => none
  | some cfg =>
    let cfg_hash := cfg.cfgHash
    match lookupA s.propose_data_by_config_hash cfg_hash with
    | some _ => some s
    | none =>
      match lookupA s.configs cfg.previous_cfg_hash with
      | none => none
      | some prev_cfg =>
        let num_validators := prev_cfg.validators.length
        let votes_table := getVotes s cfg_hash ++ List.replicate num_validators ZEROVOTE
        let pd : StorageValueConfigProposeData := ⟨tx_propose, rootHash votes_table, num_validators⟩
        some { s with
          votes_by_config_hash := upsertA s.votes_by_config_hash cfg_hash votes_table
          propose_data_by_config_hash := upsertA s.propose_data_by_config_hash cfg_hash pd
          config_hash_by_ordinal := s.config_hash_by_ordinal ++ [cfg_hash] }

/-- `ConfigurationSchema::get_propose`. -/
def get_propose (s : CState) (cfg_hash : Nat) : Option TxConfigPropose :=
  (lookupA s.propose_data_by_config_hash cfg_hash).map (·.tx_propose)

/-- `ConfigurationSchema::put_vote`.  `none` models a panic: a missing propose
entry, the propose's `cfg` failing to deserialize, a missing previous
configuration, the sender missing from the previous configuration's validator
list, or the votes-table read `get(validator_id)?.unwrap()` being out of
bounds. -/
def put_vote (s : CState) (tx_vote : TxConfigVote) : Option CState :=
  let cfg_hash := tx_vote.cfg_hash
  match lookupA s.propose_data_by_config_hash cfg_hash with
  | none => none
  | some pd =>
    match deserializeCfg pd.tx_propose.cfg with
    | none => none
    | some cfg =>
      match lookupA s.configs cfg.previous_cfg_hash with
      | none => none
      | some prev_cfg =>
        match listPos prev_cfg.validators tx_vote.fromPk with
        | none => none
        | some validator_id =>
          let vt := getVotes s cfg_hash
          match vt[validator_id]? with
          | none => none
          | some slot =>
            let vt2 := if slot = ZEROVOTE then vt.set validator_id tx_vote else vt
            let pd2 := { pd with votes_history_hash := rootHash vt2 }
            some { s with
              votes_by_config_hash := upsertA s.votes_by_config_hash cfg_hash vt2
              propose_data_by_config_hash :=
                upsertA s.propose_data_by_config_hash cfg_hash pd2 }

/-- `ConfigurationSchema::get_votes`: votes table with `ZEROVOTE` sentinels
replaced by `none`. -/
def get_votes (s : CState) (cfg_hash : Nat) : List (Option TxConfigVote) :=
  (getVotes s cfg_hash).map (fun v => if v = ZEROVOTE then none else some v)

/-- Count of non-sentinel votes, as computed by the loop in
`TxConfigVote::execute`. -/
def countVotes (s : CState) (cfg_hash : Nat) : Nat :=
  (get_votes s cfg_hash).countP (·.isSome)

/-- Modelled from the spec: `State::byzantine_majority_count` lives in
exonum-core's `node::State`, which is not under `src/`.  The spec's glossary
defines the Byzantine majority as "the vote count required to commit a
reconfiguration, strictly greater than two-thirds of validators", i.e. the
least `c` with `3 * c > 2 * total`, which is `total * 2 / 3 + 1`. -/
def byzantine_majority_count (total : Nat) : Nat :=
  total * 2 / 3 + 1

/-- The formula `ceil(2N/3) + 1` stated verbatim in the spec's commit-condition
sentence (and in the claim); written here for comparison with
`byzantine_majority_count`. -/
def spec_byzantine_majority_ceil (total : Nat) : Nat :=
  (2 * total + 2) / 3 + 1

/-- Modelled from the spec: `blockchain::Schema::commit_configuration` is not
under `src/`.  Per the spec, the candidate configuration is "committed as the
following configuration via the blockchain schema": it is recorded in the
configs table under its hash and becomes the scheduled following
configuration. -/
def commit_configuration (s : CState) (cfg : StoredConfiguration) : CState :=
  { s with configs := upsertA s.configs cfg.cfgHash cfg, following := some cfg }

/-- `<TxConfigPropose as Transaction>::execute`.  Every rejection branch
returns `Ok(())` (`some s` with the state unchanged). -/
def TxConfigPropose.execute (s : CState) (tx : TxConfigPropose) : Option CState :=
  if s.following.isSome then some s
  else if ¬ tx.fromPk ∈ s.actual.validators then some s
  else
    match deserializeCfg tx.cfg with
    | none => some s
    | some config_candidate_body =>
      if config_candidate_body.previous_cfg_hash ≠ s.actual.cfgHash then some s
      else if config_candidate_body.actual_from ≤ s.height then some s
      else put_propose s tx

/-- `<TxConfigVote as Transaction>::execute`.  `none` models a panic (the
`unwrap` on deserializing the referenced propose's config, or a panic inside
`put_vote`). -/
def TxConfigVote.execute (s : CState) (tx : TxConfigVote) : Option CState :=
  match get_propose s tx.cfg_hash with
  | none => some s
  | some referenced_tx_propose =>
    if s.following.isSome then some s
    else if ¬ tx.fromPk ∈ s.actual.validators then some s
    else
      match deserializeCfg referenced_tx_propose.cfg with
      | none => none
      | some parsed_config =>
        if parsed_config.previous_cfg_hash ≠ s.actual.cfgHash then some s
        else if parsed_config.actual_from ≤ s.height then some s
        else
          match put_vote s tx with
          | none => none
          | some s1 =>
            if byzantine_majority_count s.actual.validators.length ≤ countVotes s1 tx.cfg_hash
            then some (commit_configuration s1 parsed_config)
            else some s1

/-- The acceptance predicate of `TxConfigPropose::execute`: all validation
checks pass (no following config, known validator, parseable config
referencing the actual config, future-dated). -/
def proposeAcceptedB (s : CState) (tx : TxConfigPropose) : Bool :=
  if s.following.isSome then false
  else if ¬ tx.fromPk ∈ s.actual.validators then false
  else
    match deserializeCfg tx.cfg with
    | none => false
    | some c =>
      if c.previous_cfg_hash ≠ s.actual.cfgHash then false
      else if c.actual_from ≤ s.height then false
      else true

/-- The rejection predicate of `TxConfigVote::execute`: one of its validation
checks fails, in the order the source performs them (so a vote whose
referenced propose fails to deserialize is a panic, not a rejection). -/
def voteRejectedB (s : CState) (tx : TxConfigVote) : Bool :=
  match get_propose s tx.cfg_hash with
  | none => true
  | some referenced_tx_propose =>
    if s.following.isSome then true
    else if ¬ tx.fromPk ∈ s.actual.validators then true
    else
      match deserializeCfg referenced_tx_propose.cfg with
      | none => false
      | some parsed_config =>
        if parsed_config.previous_cfg_hash ≠ s.actual.cfgHash then true
        else if parsed_config.actual_from ≤ s.height then true
        else false

/-! ## Runtime dispatcher (`src/exonum/src/runtime/dispatcher/mod.rs`) -/

/-- `ArtifactId`: deployable code identifier. -/
structure ArtifactId where
  runtime_id : Nat
  name : String
  deriving DecidableEq, Repr

/-- `InstanceSpec`: a running service instance identifier. -/
structure InstanceSpec where
  id : Nat
  name : String
  artifact : ArtifactId
  deriving DecidableEq, Repr

/-- `Caller`: the authorization of a call. -/
inductive Caller where
  | transaction (author : Nat) (hash : Nat)
  | service (id : Nat)
  | blockchain
  deriving DecidableEq, Repr

/-- `CallInfo`: the routing target of a call. -/
structure CallInfo where
  instance_id : Nat
  method_id : Nat
  deriving DecidableEq, Repr

/-- `Verified<AnyTx>`: author public key, routing target, argument bytes. -/
structure AnyTx where
  author : Nat
  call_info : CallInfo
  arguments : List Nat
  deriving DecidableEq, Repr

/-- The dispatcher's persistent information schema, as seen through a fork.
Modelled from the spec: `runtime/dispatcher/schema.rs` is not under `src/`;
per the spec it holds `artifacts : ArtifactId -> bytes`,
`service_instances : name -> InstanceSpec`, and the `next_instance_id`
counter starting at 1024. -/
structure DispatcherSchema where
  artifacts : List (ArtifactId × Nat)
  service_instances : List (String × InstanceSpec)
  next_instance_id : Nat
  deriving DecidableEq, Repr

/-- Modelled from the spec: `Schema::add_artifact` writes
`artifacts[artifact] = spec` on the fork, idempotently keyed on the
artifact. -/
def DispatcherSchema.add_artifact (f : DispatcherSchema) (artifact : ArtifactId)
    (spec : Nat) : DispatcherSchema :=
  { f with artifacts := upsertA f.artifacts artifact spec }

/-- Modelled from the spec: `Schema::add_service_instance` persists the
instance spec under its name. -/
def DispatcherSchema.add_service_instance (f : DispatcherSchema)
    (spec : InstanceSpec) : DispatcherSchema :=
  { f with service_instances := upsertA f.service_instances spec.name spec }

/-- Modelled from the spec: `Schema::assign_instance_id` returns the current
`next_instance_id` and increments the counter atomically on the fork. -/
def DispatcherSchema.assign_instance_id (f : DispatcherSchema) :
    Nat × DispatcherSchema :=
  (f.next_instance_id, { f with next_instance_id := f.next_instance_id + 1 })

/-- Deferred dispatcher `Action`s buffered in the execution context. -/
inductive DAction where
  | registerArtifact (artifact : ArtifactId) (spec : Nat)
  | startService (artifact : ArtifactId) (instance_name : String) (config : Nat)
  deriving DecidableEq, Repr

/-- `ExecutionContext`: the fork, the caller identity and the queue of
deferred actions. -/
structure ExecutionContext where
  fork : DispatcherSchema
  caller : Caller
  actions : List DAction
  deriving DecidableEq, Repr

/-- Dispatcher-level execution errors (`dispatcher::Error` plus a
runtime-defined error code). -/
inductive DispatcherError where
  | incorrectRuntime
  | incorrectInstanceId
  | serviceIdExists
  | artifactNotDeployed
  | serviceError (code : Nat)
  deriving DecidableEq, Repr

/-- The behaviour of one runtime (`dyn Runtime`), restricted to the methods
the dispatcher claims exercise.  `execute` receives the execution context and
may mutate the fork and buffer actions; it does not receive the dispatcher
itself (reentrancy through `Dispatcher::call` is outside the embedded
claims). -/
structure RuntimeB where
  start_service : InstanceSpec → Except DispatcherError Unit
  stop_service : InstanceSpec → Except DispatcherError Unit
  configure_service : DispatcherSchema → InstanceSpec → Nat →
    Except DispatcherError DispatcherSchema
  execute : ExecutionContext → CallInfo → List Nat →
    Except DispatcherError ExecutionContext

/-- Observable runtime interactions, recorded so that "no runtime call is
made" is provable. -/
inductive REvent where
  | startSvc (spec : InstanceSpec)
  | configureSvc (spec : InstanceSpec)
  | stopSvc (spec : InstanceSpec)
  deriving DecidableEq, Repr

/-- The `Dispatcher`: the runtime registry, the instance-to-runtime lookup
table, and the `modified` flag (`Option<()>` in the source, modelled as
`Bool`). -/
structure Dispatcher where
  runtimes : List (Nat × RuntimeB)
  runtime_lookup : List (Nat × Nat)
  modified : Bool

/-- Outcome of a dispatcher operation that takes `&mut self` and a fork: on
`err` the receiver and fork as mutated so far are retained (a Rust `Err`
return does not roll back `&mut self`); `fatal` models the
`panic!(FatalError...)` escalation. -/
inductive DOutcome (α : Type) where
  | ok (value : α)
  | err (e : DispatcherError) (value : α)
  | fatal

/-- `Dispatcher::take_modified_state`: take the flag, leaving it unset. -/
def Dispatcher.take_modified_state (d : Dispatcher) : Bool × Dispatcher :=
  (d.modified, { d with modified := false })

/-- `Dispatcher::mark_as_modified`. -/
def Dispatcher.mark_as_modified (d : Dispatcher) : Dispatcher :=
  { d with modified := true }

/-- `Dispatcher::register_running_service`: insert into `runtime_lookup`. -/
def Dispatcher.register_running_service (d : Dispatcher) (spec : InstanceSpec) :
    Dispatcher :=
  { d with runtime_lookup :=
      upsertA d.runtime_lookup spec.id spec.artifact.runtime_id }

/-- `Dispatcher::register_artifact`: writes the artifact on the fork via the
schema (the deploy-state debug assertion has no release-mode effect). -/
def Dispatcher.register_artifact (d : Dispatcher) (fork : DispatcherSchema)
    (artifact : ArtifactId) (spec : Nat) : DOutcome (Dispatcher × DispatcherSchema) :=
  .ok (d, fork.add_artifact artifact spec)

/-- `Dispatcher::start_service`, together with the trace of runtime calls it
makes.  Mirrors the source order: duplicate-id check, runtime lookup,
`runtime.start_service`, `configure_service` (with `stop_service` and the
fatal panic on the error path), then `register_running_service` and
`add_service_instance`. -/
def Dispatcher.start_service (d : Dispatcher) (fork : DispatcherSchema)
    (spec : InstanceSpec) (constructor : Nat) :
    DOutcome (Dispatcher × DispatcherSchema) × List REvent :=
  if (lookupA d.runtime_lookup spec.id).isSome then
    (.err .serviceIdExists (d, fork), [])
  else
    match lookupA d.runtimes spec.artifact.runtime_id with
    | none => (.err .incorrectRuntime (d, fork), [])
    | some runtime =>
      match runtime.start_service spec with
      | .error e => (.err e (d, fork), [.startSvc spec])
      | .ok _ =>
        match runtime.configure_service fork spec constructor with
        | .error e =>
          match runtime.stop_service spec with
          | .error _ => (.fatal, [.startSvc spec, .configureSvc spec, .stopSvc spec])
          | .ok _ => (.err e (d, fork), [.startSvc spec, .configureSvc spec, .stopSvc spec])
        | .ok fork2 =>
          let d2 := d.register_running_service spec
          (.ok (d2, fork2.add_service_instance spec), [.startSvc spec, .configureSvc spec])

/-- `Action::execute`: replay one deferred action against the dispatcher and
the fork. -/
def DAction.execute (a : DAction) (d : Dispatcher) (fork : DispatcherSchema) :
    DOutcome (Dispatcher × DispatcherSchema) :=
  match a with
  | .registerArtifact artifact spec => d.register_artifact fork artifact spec
  | .startService artifact instance_name config =>
    let (id, fork2) := fork.assign_instance_id
    (d.start_service fork2 ⟨id, instance_name, artifact⟩ config).1

/-- The `for action in actions` loop of `Dispatcher::execute`: run the
deferred actions in order, stopping at the first failure. -/
def runActions (d : Dispatcher) (fork : DispatcherSchema) :
    List DAction → DOutcome (Dispatcher × DispatcherSchema)
  | [] => .ok (d, fork)
  | a :: rest =>
    match a.execute d fork with
    | .fatal => .fatal
    | .err e v => .err e v
    | .ok (d2, fork2) => runActions d2 fork2 rest

/-- `Dispatcher::call`: route by `runtime_lookup`, then by the runtime
registry, then dispatch to the runtime's `execute`. -/
def Dispatcher.call (d : Dispatcher) (context : ExecutionContext)
    (call_info : CallInfo) (arguments : List Nat) :
    Except DispatcherError ExecutionContext :=
  match lookupA d.runtime_lookup call_info.instance_id with
  | none => .error .incorrectInstanceId
  | some runtime_id =>
    match lookupA d.runtimes runtime_id with
    | none => .error .incorrectRuntime
    | some runtime => runtime.execute context call_info arguments

/-- `Dispatcher::execute`: build the context, perform the top-level call, take
the deferred actions, execute them, and mark the dispatcher as modified only
after all actions have succeeded (an action failure propagates through `?`
before `mark_as_modified` is reached). -/
def Dispatcher.execute (d : Dispatcher) (fork : DispatcherSchema) (tx_id : Nat)
    (tx : AnyTx) : DOutcome (Dispatcher × DispatcherSchema) :=
  let context : ExecutionContext := ⟨fork, .transaction tx.author tx_id, []⟩
  match d.call context tx.call_info tx.arguments with
  | .error e => .err e (d, fork)
  | .ok context2 =>
    let actions := context2.actions
    let is_modified := !actions.isEmpty
    match runActions d context2.fork actions with
    | .fatal => .fatal
    | .err e v => .err e v
    | .ok (d2, fork2) =>
      if is_modified then .ok (d2.mark_as_modified, fork2) else .ok (d2, fork2)

/-! ## Wallet schema (`src/examples/cryptocurrency-advanced/backend/src/schema.rs`) -/

/-- `Wallet` record (fields per the spec's data model; `wallet.rs` itself is
not under `src/`). -/
structure Wallet where
  pub_key : Nat
  name : String
  balance : Nat
  history_len : Nat
  history_hash : Nat
  deriving DecidableEq, Repr

/-- Modelled from the spec: `INITIAL_BALANCE` is defined in the
cryptocurrency crate root, not under `src/`; the spec's wallet-transfer
scenario creates wallets with balance 100. -/
def INITIAL_BALANCE : Nat := 100

/-- 2^64, the wrap-around modulus of `u64` balances. -/
def U64LIMIT : Nat := 2 ^ 64

/-- Modelled from the spec: `Wallet::set_balance` lives in `wallet.rs`, which
is not under `src/`.  The spec requires `history_len` and `history_hash` to
match the proof-list after each balance mutation, which appends exactly one
entry: `set_balance` replaces the balance and history hash and increments
`history_len`. -/
def Wallet.set_balance (w : Wallet) (balance : Nat) (history_hash : Nat) : Wallet :=
  { w with balance := balance, history_len := w.history_len + 1,
           history_hash := history_hash }

/-- `object_hash` of a proof list of transaction hashes: a deterministic
function of the contents. -/
def listHash (l : List Nat) : Nat := l.foldr Nat.pair 0

/-- `SchemaImpl`: the wallets proof-map and the per-wallet history
proof-lists (a missing history key denotes the empty list). -/
structure SchemaImpl where
  wallets : List (Nat × Wallet)
  wallet_history : List (Nat × List Nat)
  deriving DecidableEq, Repr

/-- Contents of `wallet_history[key]`. -/
def getHistory (s : SchemaImpl) (key : Nat) : List Nat :=
  (lookupA s.wallet_history key).getD []

/-- `SchemaImpl::create_wallet`. -/
def create_wallet (s : SchemaImpl) (key : Nat) (name : String)
    (transaction : Nat) : SchemaImpl :=
  let history := getHistory s key ++ [transaction]
  let history_hash := listHash history
  let wallet : Wallet := ⟨key, name, INITIAL_BALANCE, history.length, history_hash⟩
  { s with wallet_history := upsertA s.wallet_history key history
           wallets := upsertA s.wallets key wallet }

/-- `SchemaImpl::increase_wallet_balance` (`u64` addition wraps modulo
2^64). -/
def increase_wallet_balance (s : SchemaImpl) (wallet : Wallet) (amount : Nat)
    (transaction : Nat) : SchemaImpl :=
  let history := getHistory s wallet.pub_key ++ [transaction]
  let history_hash := listHash history
  let wallet2 := wallet.set_balance ((wallet.balance + amount) % U64LIMIT) history_hash
  { s with wallet_history := upsertA s.wallet_history wallet.pub_key history
           wallets := upsertA s.wallets wallet2.pub_key wallet2 }

/-- `SchemaImpl::decrease_wallet_balance` (`u64` subtraction wraps modulo
2^64). -/
def decrease_wallet_balance (s : SchemaImpl) (wallet : Wallet) (amount : Nat)
    (transaction : Nat) : SchemaImpl :=
  let history := getHistory s wallet.pub_key ++ [transaction]
  let history_hash := listHash history
  let wallet2 := wallet.set_balance (((wallet.balance + U64LIMIT) - amount % U64LIMIT) % U64LIMIT)
    history_hash
  { s with wallet_history := upsertA s.wallet_history wallet.pub_key history
           wallets := upsertA s.wallets wallet2.pub_key wallet2 }

/-- The per-key wallet invariant: the stored `history_len` and `history_hash`
fields match the history proof-list. -/
def walletInvariant (s : SchemaImpl) (k : Nat) : Prop :=
  ∀ w, lookupA s.wallets k = some w →
    w.history_len = (getHistory s k).length ∧ w.history_hash = listHash (getHistory s k)

/-! ## Concrete instances used by witnesses and counterexamples -/

/-- A previous (actual) configuration with four validators. -/
def exPrev : StoredConfiguration := ⟨0, 0, [1, 2, 3, 4]⟩

/-- A candidate configuration referencing `exPrev` and future-dated. -/
def exCand : StoredConfiguration := ⟨exPrev.cfgHash, 10, [1, 2, 3, 4]⟩

/-- A propose of `exCand` signed by validator 1. -/
def exPropose : TxConfigPropose := ⟨1, .valid exCand⟩

/-- A votes table for `exCand` in which validators 1 and 2 have voted. -/
def exVotes0 : List TxConfigVote :=
  [⟨1, exCand.cfgHash⟩, ⟨2, exCand.cfgHash⟩, ZEROVOTE, ZEROVOTE]

/-- Propose data for `exCand` after the two votes of `exVotes0`. -/
def exPd : StorageValueConfigProposeData := ⟨exPropose, rootHash exVotes0, 4⟩

/-- A state with `exPrev` actual and the `exCand` propose stored with two
votes. -/
def exS0 : CState :=
  { configs := [(exPrev.cfgHash, exPrev)]
    actual := exPrev
    following := none
    height := 5
    propose_data_by_config_hash := [(exCand.cfgHash, exPd)]
    config_hash_by_ordinal := [exCand.cfgHash]
    votes_by_config_hash := [(exCand.cfgHash, exVotes0)] }

/-- A state with `exPrev` actual and no propose yet. -/
def exS00 : CState :=
  { configs := [(exPrev.cfgHash, exPrev)]
    actual := exPrev
    following := none
    height := 5
    propose_data_by_config_hash := []
    config_hash_by_ordinal := []
    votes_by_config_hash := [] }

/-- The third distinct vote for `exCand`, by validator 3. -/
def exVote : TxConfigVote := ⟨3, exCand.cfgHash⟩

/-- A duplicate vote by validator 1, who already voted in `exVotes0`. -/
def exVoteDup : TxConfigVote := ⟨1, exCand.cfgHash⟩

/-- State reached by `put_vote exS0 exVote`. -/
def exSv : CState := (put_vote exS0 exVote).getD exS0

/-- State reached by `TxConfigVote.execute exS0 exVote`. -/
def exS1 : CState := (TxConfigVote.execute exS0 exVote).getD exS0

/-- State reached by `put_vote exS0 exVoteDup`. -/
def exSd : CState := (put_vote exS0 exVoteDup).getD exS0

/-- A propose sent by key 9, which is not a validator of `exPrev`. -/
def exProposeBad : TxConfigPropose := ⟨9, .valid exCand⟩

/-- A vote referencing an unknown configuration hash. -/
def exVoteBad : TxConfigVote := ⟨3, 999⟩

/-- A runtime whose methods all succeed and whose `execute` leaves the
context unchanged. -/
def rtTrivial : RuntimeB :=
  { start_service := fun _ => .ok ()
    stop_service := fun _ => .ok ()
    configure_service := fun f _ _ => .ok f
    execute := fun ctx _ _ => .ok ctx }

/-- A runtime whose `execute` queues one `registerArtifact` deferred action
(which always succeeds on replay). -/
def rtQueueReg : RuntimeB :=
  { start_service := fun _ => .ok ()
    stop_service := fun _ => .ok ()
    configure_service := fun f _ _ => .ok f
    execute := fun ctx _ _ =>
      .ok { ctx with actions := ctx.actions ++ [.registerArtifact ⟨1, "first"⟩ 0] } }

/-- A runtime whose `execute` queues one `startService` deferred action whose
artifact names runtime 99, which is not registered, so the replay fails with
`IncorrectRuntime`. -/
def rtQueueBad : RuntimeB :=
  { start_service := fun _ => .ok ()
    stop_service := fun _ => .ok ()
    configure_service := fun f _ _ => .ok f
    execute := fun ctx _ _ =>
      .ok { ctx with actions := ctx.actions ++ [.startService ⟨99, "ghost"⟩ "svc" 0] } }

/-- An empty dispatcher schema fork. -/
def exFork : DispatcherSchema := ⟨[], [], 1024⟩

/-- A dispatcher hosting `rtTrivial` as runtime 1 with instance 2 running. -/
def exDisp : Dispatcher := ⟨[(1, rtTrivial)], [(2, 1)], false⟩

/-- An instance spec whose id 2 is already taken in `exDisp`. -/
def exSpec : InstanceSpec := ⟨2, "dup", ⟨1, "first"⟩⟩

/-- An execution context for routing examples. -/
def exCtx : ExecutionContext := ⟨exFork, .blockchain, []⟩

/-- A dispatcher hosting `rtQueueReg` as runtime 1 with instance 5 running. -/
def c1Disp : Dispatcher := ⟨[(1, rtQueueReg)], [(5, 1)], false⟩

/-- A transaction routed to instance 5. -/
def c1Tx : AnyTx := ⟨7, ⟨5, 0⟩, []⟩

/-- The context produced by the top-level call of `c1Tx` in `c1Disp`. -/
def c1Ctx2 : ExecutionContext :=
  ⟨exFork, .transaction 7 0, [.registerArtifact ⟨1, "first"⟩ 0]⟩

/-- The fork after replaying the `registerArtifact` action of `c1Ctx2`. -/
def c1Fork2 : DispatcherSchema := ⟨[(⟨1, "first"⟩, 0)], [], 1024⟩

/-- A dispatcher hosting `rtQueueBad` as runtime 1 with instance 5 running. -/
def cxDisp : Dispatcher := ⟨[(1, rtQueueBad)], [(5, 1)], false⟩

/-- The context produced by the top-level call of `c1Tx` in `cxDisp`. -/
def cxCtx2 : ExecutionContext :=
  ⟨exFork, .transaction 7 0, [.startService ⟨99, "ghost"⟩ "svc" 0]⟩

/-- The fork after the failed replay of the `startService` action of
`cxCtx2`: only `assign_instance_id` has advanced the counter. -/
def cxFork2 : DispatcherSchema := ⟨[], [], 1025⟩

/-- An empty wallet schema. -/
def exWS : SchemaImpl := ⟨[], []⟩

/-- Wallet schema after creating wallet 1 under transaction hash 11. -/
def exW0 : SchemaImpl := create_wallet exWS 1 "alice" 11

/-- The wallet record stored for key 1 in `exW0`. -/
def exWallet : Wallet := ⟨1, "alice", INITIAL_BALANCE, 1, listHash [11]⟩

/-! ## Claims -/

/-- Claim C7: if `propose_data_by_config_hash` already contains an entry for
the `cfg_hash` of the submitted proposal, `put_propose` returns `Ok` and
performs no state mutation; hence `put_propose` applied twice with the same
`cfg_hash` produces exactly one persistent record (the state after the second
call is the state after the first). -/
theorem put_propose_idempotent (s : CState) (tx : TxConfigPropose)
    (cfg : StoredConfiguration) (hde : deserializeCfg tx.cfg = some cfg) :
    ((lookupA s.propose_data_by_config_hash cfg.cfgHash).isSome →
      put_propose s tx = some s) ∧
    (∀ s1, put_propose s tx = some s1 → put_propose s1 tx = some s1) := by
  have hbase : ∀ t : CState, (lookupA t.propose_data_by_config_hash cfg.cfgHash).isSome →
      put_propose t tx = some t := by
    intro t ht
    cases hl : lookupA t.propose_data_by_config_hash cfg.cfgHash with
    | none => rw [hl] at ht; simp at ht
    | some pd => simp [put_propose, hde, hl]
  refine ⟨hbase s, ?_⟩
  intro s1 h1
  apply hbase s1
  cases hl : lookupA s.propose_data_by_config_hash cfg.cfgHash with
  | some pd =>
    have : put_propose s tx = some s := by simp [put_propose, hde, hl]
    rw [this] at h1
    cases h1
    rw [hl]
    rfl
  | none =>
    cases hc : lookupA s.configs cfg.previous_cfg_hash with
    | none =>
      have : put_propose s tx = none := by simp [put_propose, hde, hl, hc]
      rw [this] at h1
      cases h1
    | some prev =>
      have : put_propose s tx = some
          { s with
            votes_by_config_hash := upsertA s.votes_by_config_hash cfg.cfgHash
              (getVotes s cfg.cfgHash ++ List.replicate prev.validators.length ZEROVOTE)
            propose_data_by_config_hash := upsertA s.propose_data_by_config_hash cfg.cfgHash
              ⟨tx, rootHash (getVotes s cfg.cfgHash ++
                List.replicate prev.validators.length ZEROVOTE),
                prev.validators.length⟩
            config_hash_by_ordinal := s.config_hash_by_ordinal ++ [cfg.cfgHash] } := by
        simp [put_propose, hde, hl, hc]
      rw [this] at h1
      cases h1
      simp [lookupA_upsertA_self]

/-- Claim C7 witness: a second `put_propose` of `exPropose` on a state that
already stores its propose returns `Ok` with the state unchanged. -/
theorem put_propose_idempotent_witness : put_propose exS0 exPropose = some exS0 :=
  (put_propose_idempotent exS0 exPropose exCand (by decide)).1 (by decide)

/-- Claim C3: when `put_propose` accepts a new proposal it pre-sizes the votes
list for its `cfg_hash` to exactly `N = len(prev_cfg.validators)` sentinel
zero-votes, stores `ProposeData` with the propose, `num_votes = N`, and
`votes_history_hash` equal to the root hash of that freshly initialised votes
list, and appends `cfg_hash` to `config_hash_by_ordinal`. -/
theorem put_propose_initializes (s : CState) (tx : TxConfigPropose)
    (cfg prev_cfg : StoredConfiguration)
    (hde : deserializeCfg tx.cfg = some cfg)
    (hnew : lookupA s.propose_data_by_config_hash cfg.cfgHash = none)
    (hprev : lookupA s.configs cfg.previous_cfg_hash = some prev_cfg)
    (hempty : getVotes s cfg.cfgHash = []) :
    ∃ s1, put_propose s tx = some s1 ∧
      getVotes s1 cfg.cfgHash = List.replicate prev_cfg.validators.length ZEROVOTE ∧
      lookupA s1.propose_data_by_config_hash cfg.cfgHash =
        some ⟨tx, rootHash (List.replicate prev_cfg.validators.length ZEROVOTE),
              prev_cfg.validators.length⟩ ∧
      s1.config_hash_by_ordinal = s.config_hash_by_ordinal ++ [cfg.cfgHash] := by
  refine ⟨{ s with
      votes_by_config_hash := upsertA s.votes_by_config_hash cfg.cfgHash
        (getVotes s cfg.cfgHash ++ List.replicate prev_cfg.validators.length ZEROVOTE)
      propose_data_by_config_hash := upsertA s.propose_data_by_config_hash cfg.cfgHash
        ⟨tx, rootHash (getVotes s cfg.cfgHash ++
          List.replicate prev_cfg.validators.length ZEROVOTE), prev_cfg.validators.length⟩
      config_hash_by_ordinal := s.config_hash_by_ordinal ++ [cfg.cfgHash] },
    ?_, ?_, ?_, rfl⟩
  · simp [put_propose, hde, hnew, hprev]
  · simp only [getVotes] at hempty
    simp [getVotes, lookupA_upsertA_self, hempty]
  · simp [lookupA_upsertA_self, hempty]

/-- Claim C3 witness: on a state with no propose stored, `put_propose` of
`exPropose` initialises four sentinel slots and records the propose data. -/
theorem put_propose_initializes_witness :
    ∃ s1, put_propose exS00 exPropose = some s1 ∧
      getVotes s1 exCand.cfgHash = List.replicate exPrev.validators.length ZEROVOTE ∧
      lookupA s1.propose_data_by_config_hash exCand.cfgHash =
        some ⟨exPropose, rootHash (List.replicate exPrev.validators.length ZEROVOTE),
              exPrev.validators.length⟩ ∧
      s1.config_hash_by_ordinal = exS00.config_hash_by_ordinal ++ [exCand.cfgHash] :=
  put_propose_initializes exS00 exPropose exCand exPrev (by decide) (by decide)
    (by decide) (by decide)

/-- Claim C10: rejection of a configuration transaction is silent: whenever a
`TxConfigPropose` fails one of its validation checks (i.e. it is not
accepted), or a `TxConfigVote` fails one of its validation checks in source
order, `execute` returns `Ok(())` and leaves the whole state (in particular
all configuration tables) unchanged. -/
theorem config_rejection_is_silent (s : CState) (tp : TxConfigPropose)
    (tv : TxConfigVote) :
    (proposeAcceptedB s tp = false → TxConfigPropose.execute s tp = some s) ∧
    (voteRejectedB s tv = true → TxConfigVote.execute s tv = some s) := by
  constructor
  · intro h
    unfold proposeAcceptedB at h
    unfold TxConfigPropose.execute
    by_cases h1 : s.following.isSome
    · simp [h1]
    · simp only [h1, if_false] at h ⊢
      by_cases h2 : tp.fromPk ∈ s.actual.validators
      · simp only [h2, not_true, if_false] at h ⊢
        cases hde : deserializeCfg tp.cfg with
        | none => simp [hde]
        | some c =>
          rw [hde] at h
          by_cases h3 : c.previous_cfg_hash ≠ s.actual.cfgHash
          · simp [h3]
          · simp only [h3, if_false] at h ⊢
            by_cases h4 : c.actual_from ≤ s.height
            · simp [h4]
            · simp [h4] at h
      · simp [h2]
  · intro h
    unfold voteRejectedB at h
    unfold TxConfigVote.execute
    cases hp : get_propose s tv.cfg_hash with
    | none => simp
    | some rp =>
      rw [hp] at h
      by_cases h1 : s.following.isSome
      · simp [h1]
      · simp only [h1, if_false] at h ⊢
        by_cases h2 : tv.fromPk ∈ s.actual.validators
        · simp only [h2, not_true, if_false] at h ⊢
          cases hde : deserializeCfg rp.cfg with
          | none => rw [hde] at h; simp at h
          | some c =>
            rw [hde] at h
            by_cases h3 : c.previous_cfg_hash ≠ s.actual.cfgHash
            · simp [h3]
            · simp only [h3, if_false] at h ⊢
              by_cases h4 : c.actual_from ≤ s.height
              · simp [h4]
              · simp [h4] at h
        · simp [h2]

/-- Claim C10 witness: a propose from non-validator key 9 and a vote for an
unknown configuration hash are both silently discarded with the state
unchanged. -/
theorem config_rejection_is_silent_witness :
    TxConfigPropose.execute exS0 exProposeBad = some exS0 ∧
    TxConfigVote.execute exS0 exVoteBad = some exS0 :=
  ⟨(config_rejection_is_silent exS0 exProposeBad exVoteBad).1 (by decide),
   (config_rejection_is_silent exS0 exProposeBad exVoteBad).2 (by decide)⟩

/-- Claim C4: for every vote accepted by `TxConfigVote::execute` (all
acceptance checks pass, under the reachable-state invariants that the configs
table stores the actual configuration under its own hash, that the stored
`num_votes` equals the validator count of the propose's previous
configuration, and that the votes table has `num_votes` slots), the sender's
key occurs in the previous configuration's validator list at an index
`i < num_votes`, and `put_vote` succeeds: its in-bounds reads and the
`unwrap`/`expect` panic branches are not taken. -/
theorem vote_accepted_in_bounds (s : CState) (tx : TxConfigVote)
    (pd : StorageValueConfigProposeData) (parsed : StoredConfiguration)
    (h1 : lookupA s.propose_data_by_config_hash tx.cfg_hash = some pd)
    (h2 : s.following = none)
    (h3 : tx.fromPk ∈ s.actual.validators)
    (h4 : deserializeCfg pd.tx_propose.cfg = some parsed)
    (h5 : parsed.previous_cfg_hash = s.actual.cfgHash)
    (h6 : s.height < parsed.actual_from)
    (hc : lookupA s.configs s.actual.cfgHash = some s.actual)
    (hn : pd.num_votes = s.actual.validators.length)
    (hv : (getVotes s tx.cfg_hash).length = pd.num_votes) :
    ∃ i, listPos s.actual.validators tx.fromPk = some i ∧ i < pd.num_votes ∧
      (put_vote s tx).isSome = true := by
  obtain ⟨i, hpos, hlt⟩ := listPos_of_mem s.actual.validators tx.fromPk h3
  refine ⟨i, hpos, by rw [hn]; exact hlt, ?_⟩
  have hslot : ∃ slot, (getVotes s tx.cfg_hash)[i]? = some slot := by
    have hlen : i < (getVotes s tx.cfg_hash).length := by rw [hv, hn]; exact hlt
    exact ⟨_, List.getElem?_eq_getElem hlen⟩
  obtain ⟨slot, hslot⟩ := hslot
  simp [put_vote, h1, h4, h5, hc, hpos, hslot]

/-- Claim C4 witness: the accepted vote `exVote` of validator 3 sits at index
2 of the four `num_votes` slots and `put_vote` succeeds on `exS0`. -/
theorem vote_accepted_in_bounds_witness :
    ∃ i, listPos exS0.actual.validators exVote.fromPk = some i ∧
      i < exPd.num_votes ∧ (put_vote exS0 exVote).isSome = true :=
  vote_accepted_in_bounds exS0 exVote exPd exCand (by decide) (by decide) (by decide)
    (by decide) (by decide) (by decide) (by decide) (by decide) (by decide)

/-- `byzantine_majority_count` is the least vote count strictly greater than
two-thirds of the validator total. -/
theorem byzantine_majority_count_le_iff (total c : Nat) :
    byzantine_majority_count total ≤ c ↔ 2 * total < 3 * c := by
  unfold byzantine_majority_count
  rw [Nat.add_one_le_iff, Nat.div_lt_iff_lt_mul (by norm_num : (0:Nat) < 3)]
  omega

/-- Claim C2 (amended): after `TxConfigVote::execute` stores an accepted vote
(acceptance checks pass and `put_vote` yields `s1`), the candidate
configuration is committed as the following configuration iff the number of
non-sentinel votes is at least `byzantine_majority_count N` for `N` the
actual configuration's validator count — the least count strictly greater
than two-thirds of `N` (that is `floor(2N/3) + 1`, not `ceil(2N/3) + 1`). -/
theorem vote_commit_condition (s : CState) (tx : TxConfigVote)
    (pd : StorageValueConfigProposeData) (parsed : StoredConfiguration) (s1 : CState)
    (h1 : lookupA s.propose_data_by_config_hash tx.cfg_hash = some pd)
    (h2 : s.following = none)
    (h3 : tx.fromPk ∈ s.actual.validators)
    (h4 : deserializeCfg pd.tx_propose.cfg = some parsed)
    (h5 : parsed.previous_cfg_hash = s.actual.cfgHash)
    (h6 : s.height < parsed.actual_from)
    (h7 : put_vote s tx = some s1) :
    TxConfigVote.execute s tx =
      some (if byzantine_majority_count s.actual.validators.length ≤
              countVotes s1 tx.cfg_hash
            then commit_configuration s1 parsed else s1) ∧
    (byzantine_majority_count s.actual.validators.length ≤ countVotes s1 tx.cfg_hash ↔
      2 * s.actual.validators.length < 3 * countVotes s1 tx.cfg_hash) := by
  refine ⟨?_, byzantine_majority_count_le_iff _ _⟩
  have hgp : get_propose s tx.cfg_hash = some pd.tx_propose := by
    simp [get_propose, h1]
  have hnle : ¬ parsed.actual_from ≤ s.height := Nat.not_le_of_lt h6
  simp [TxConfigVote.execute, hgp, h2, h3, h4, h5, hnle, h7, apply_ite]
  split
  · intro hlt
    exact absurd hlt (Nat.not_lt.mpr (by assumption))
  · intro hle
    exact absurd hle (by assumption)

/-- Claim C2 witness: executing the third vote on `exS0` (four validators)
takes the committed-iff-majority branch with the majority threshold met
exactly when the count strictly exceeds two-thirds of 4. -/
theorem vote_commit_condition_witness :
    TxConfigVote.execute exS0 exVote =
      some (if byzantine_majority_count exS0.actual.validators.length ≤
              countVotes exSv exVote.cfg_hash
            then commit_configuration exSv exCand else exSv) ∧
    (byzantine_majority_count exS0.actual.validators.length ≤
        countVotes exSv exVote.cfg_hash ↔
      2 * exS0.actual.validators.length < 3 * countVotes exSv exVote.cfg_hash) :=
  vote_commit_condition exS0 exVote exPd exCand exSv (by decide) (by decide)
    (by decide) (by decide) (by decide) (by decide) (by decide)

/-- Claim C2 counterexample: with `N = 4` validators the code commits the
candidate configuration at 3 non-sentinel votes, although
`ceil(2N/3) + 1 = 4`, so the claimed commit condition
"iff the count is at least `ceil(2N/3) + 1`" is false at this input (the
threshold actually used is `floor(2N/3) + 1 = 3`). -/
theorem vote_commit_ceil_counterexample :
    TxConfigVote.execute exS0 exVote = some exS1 ∧
    exS1.following = some exCand ∧
    countVotes exS1 exVote.cfg_hash = 3 ∧
    exS0.actual.validators.length = 4 ∧
    ¬ (spec_byzantine_majority_ceil exS0.actual.validators.length ≤
        countVotes exS1 exVote.cfg_hash) := by
  refine ⟨by decide, by decide, by decide, by decide, by decide⟩

/-- Claim C6: if the slot at the voting validator's index already holds a
non-sentinel vote, `put_vote` leaves the votes table unchanged (only the
history hash is refreshed to the root of the unchanged table); and `put_vote`
applied twice by the same validator on the same propose leaves the state — in
particular the votes table and the stored `ProposeData` — exactly as after
the first call. -/
theorem put_vote_first_wins (s : CState) (tx : TxConfigVote)
    (pd : StorageValueConfigProposeData) (cfg prev_cfg : StoredConfiguration)
    (i : Nat) (slot : TxConfigVote)
    (h1 : lookupA s.propose_data_by_config_hash tx.cfg_hash = some pd)
    (h2 : deserializeCfg pd.tx_propose.cfg = some cfg)
    (h3 : lookupA s.configs cfg.previous_cfg_hash = some prev_cfg)
    (h4 : listPos prev_cfg.validators tx.fromPk = some i)
    (h5 : (getVotes s tx.cfg_hash)[i]? = some slot) :
    (slot ≠ ZEROVOTE →
      ∃ s1, put_vote s tx = some s1 ∧
        getVotes s1 tx.cfg_hash = getVotes s tx.cfg_hash) ∧
    (∀ s1, put_vote s tx = some s1 → put_vote s1 tx = some s1) := by
  have hlt : i < (getVotes s tx.cfg_hash).length := (List.getElem?_eq_some.mp h5).1
  have hput : put_vote s tx = some
      { s with
        votes_by_config_hash := upsertA s.votes_by_config_hash tx.cfg_hash
          (if slot = ZEROVOTE then (getVotes s tx.cfg_hash).set i tx
           else getVotes s tx.cfg_hash)
        propose_data_by_config_hash := upsertA s.propose_data_by_config_hash tx.cfg_hash
          ⟨pd.tx_propose,
           rootHash (if slot = ZEROVOTE then (getVotes s tx.cfg_hash).set i tx
             else getVotes s tx.cfg_hash),
           pd.num_votes⟩ } := by
    simp [put_vote, h1, h2, h3, h4, h5]
  constructor
  · intro hne
    refine ⟨_, hput, ?_⟩
    simp [getVotes, hne, lookupA_upsertA_self]
  · intro s1 hs1
    rw [hput] at hs1
    cases hs1
    set vt2 := (if slot = ZEROVOTE then (getVotes s tx.cfg_hash).set i tx
      else getVotes s tx.cfg_hash) with hvt2
    have hgv1 : getVotes
        { s with
          votes_by_config_hash := upsertA s.votes_by_config_hash tx.cfg_hash vt2
          propose_data_by_config_hash := upsertA s.propose_data_by_config_hash tx.cfg_hash
            ⟨pd.tx_propose, rootHash vt2, pd.num_votes⟩ } tx.cfg_hash = vt2 := by
      simp [getVotes, lookupA_upsertA_self]
    have hslot2 : ∃ slot2, vt2[i]? = some slot2 ∧
        (if slot2 = ZEROVOTE then vt2.set i tx else vt2) = vt2 := by
      by_cases hz : slot = ZEROVOTE
      · refine ⟨tx, ?_, ?_⟩
        · rw [hvt2]
          simp only [hz, if_true]
          exact List.getElem?_set_eq_of_lt tx hlt
        · by_cases htz : tx = ZEROVOTE
          · rw [hvt2]
            simp only [hz, if_true, htz, if_pos rfl]
            rw [List.set_set]
          · simp [htz]
      · refine ⟨slot, ?_, by simp [hz]⟩
        rw [hvt2]
        simp only [hz, if_false]
        exact h5
    obtain ⟨slot2, hslot2, hset2⟩ := hslot2
    have hpd1 : lookupA (upsertA s.propose_data_by_config_hash tx.cfg_hash
        ⟨pd.tx_propose, rootHash vt2, pd.num_votes⟩) tx.cfg_hash =
        some ⟨pd.tx_propose, rootHash vt2, pd.num_votes⟩ := lookupA_upsertA_self _ _ _
    have hv1 : lookupA (upsertA s.votes_by_config_hash tx.cfg_hash vt2) tx.cfg_hash =
        some vt2 := lookupA_upsertA_self _ _ _
    simp only [put_vote, hpd1, h2, h3, h4, hgv1, hslot2, hset2]
    rw [upsertA_self_of_lookupA _ _ _ hv1,
        upsertA_self_of_lookupA _ _ _ hpd1]

/-- Claim C6 witness: validator 1 already voted in `exS0`; a duplicate
`put_vote` leaves the votes table unchanged, and repeating the same
`put_vote` reproduces the state after the first call. -/
theorem put_vote_first_wins_witness :
    (∃ s1, put_vote exS0 exVoteDup = some s1 ∧
      getVotes s1 exVoteDup.cfg_hash = getVotes exS0 exVoteDup.cfg_hash) ∧
    put_vote exSd exVoteDup = some exSd :=
  ⟨(put_vote_first_wins exS0 exVoteDup exPd exCand exPrev 0 ⟨1, exCand.cfgHash⟩
      (by decide) (by decide) (by decide) (by decide) (by decide)).1 (by decide),
   (put_vote_first_wins exS0 exVoteDup exPd exCand exPrev 0 ⟨1, exCand.cfgHash⟩
      (by decide) (by decide) (by decide) (by decide) (by decide)).2 exSd (by decide)⟩

/-- Claim C5: each wallet-schema operation re-establishes, for the key it
touches, that the stored `history_len` equals the history proof-list length
and the stored `history_hash` equals the list's object hash:
`create_wallet` unconditionally, and `increase_wallet_balance` /
`decrease_wallet_balance` assuming the mutated wallet is the one stored at
the key and the invariant held before the call. -/
theorem wallet_ops_preserve_invariant (s : SchemaImpl) (k : Nat) (nm : String)
    (transaction amount : Nat) :
    walletInvariant (create_wallet s k nm transaction) k ∧
    (∀ w, lookupA s.wallets k = some w → w.pub_key = k → walletInvariant s k →
      walletInvariant (increase_wallet_balance s w amount transaction) k) ∧
    (∀ w, lookupA s.wallets k = some w → w.pub_key = k → walletInvariant s k →
      walletInvariant (decrease_wallet_balance s w amount transaction) k) := by
  refine ⟨?_, ?_, ?_⟩
  · intro w hw
    simp only [create_wallet, lookupA_upsertA_self] at hw
    cases hw
    constructor
    · simp [getHistory, create_wallet, lookupA_upsertA_self]
    · simp [getHistory, create_wallet, lookupA_upsertA_self]
  · intro w hw hk hinv w2 hw2
    obtain ⟨hlen, _⟩ := hinv w hw
    simp only [increase_wallet_balance, Wallet.set_balance, hk, lookupA_upsertA_self] at hw2
    cases hw2
    constructor
    · simp [getHistory, increase_wallet_balance, hk, lookupA_upsertA_self, hlen]
    · simp [getHistory, increase_wallet_balance, hk, lookupA_upsertA_self]
  · intro w hw hk hinv w2 hw2
    obtain ⟨hlen, _⟩ := hinv w hw
    simp only [decrease_wallet_balance, Wallet.set_balance, hk, lookupA_upsertA_self] at hw2
    cases hw2
    constructor
    · simp [getHistory, decrease_wallet_balance, hk, lookupA_upsertA_self, hlen]
    · simp [getHistory, decrease_wallet_balance, hk, lookupA_upsertA_self]

/-- Claim C5 witness: creating wallet 1 establishes the invariant, and an
increase and a decrease on the created wallet each re-establish it. -/
theorem wallet_ops_preserve_invariant_witness :
    walletInvariant exW0 1 ∧
    walletInvariant (increase_wallet_balance exW0 exWallet 30 12) 1 ∧
    walletInvariant (decrease_wallet_balance exW0 exWallet 30 12) 1 :=
  ⟨(wallet_ops_preserve_invariant exWS 1 "alice" 11 30).1,
   (wallet_ops_preserve_invariant exW0 1 "alice" 12 30).2.1 exWallet (by decide) (by decide)
     (wallet_ops_preserve_invariant exWS 1 "alice" 11 30).1,
   (wallet_ops_preserve_invariant exW0 1 "alice" 12 30).2.2 exWallet (by decide) (by decide)
     (wallet_ops_preserve_invariant exWS 1 "alice" 11 30).1⟩

/-- Claim C8: if `runtime_lookup` already contains `spec.id`,
`Dispatcher::start_service` returns `ServiceIdExists` with the dispatcher
(in particular `runtime_lookup`) and the persistent schema unchanged, and
makes no runtime call (`start_service`, `configure_service` or any other:
the trace is empty). -/
theorem start_service_duplicate_id (d : Dispatcher) (fork : DispatcherSchema)
    (spec : InstanceSpec) (constructor : Nat)
    (h : (lookupA d.runtime_lookup spec.id).isSome = true) :
    d.start_service fork spec constructor = (.err .serviceIdExists (d, fork), []) := by
  simp [Dispatcher.start_service, h]

/-- Claim C8 witness: starting `exSpec`, whose id 2 is already running in
`exDisp`, fails with `ServiceIdExists`, changing nothing and calling no
runtime. -/
theorem start_service_duplicate_id_witness :
    exDisp.start_service exFork exSpec 0 = (.err .serviceIdExists (exDisp, exFork), []) :=
  start_service_duplicate_id exDisp exFork exSpec 0 (by decide)

/-- Claim C9: `Dispatcher::call` returns `IncorrectInstanceId` when the
instance id has no entry in `runtime_lookup`; `IncorrectRuntime` when the
entry maps to a runtime id with no registered runtime; and otherwise
dispatches to that runtime's `execute` and returns its result. -/
theorem call_routing (d : Dispatcher) (context : ExecutionContext)
    (call_info : CallInfo) (arguments : List Nat) :
    (lookupA d.runtime_lookup call_info.instance_id = none →
      d.call context call_info arguments = .error .incorrectInstanceId) ∧
    (∀ runtime_id, lookupA d.runtime_lookup call_info.instance_id = some runtime_id →
      lookupA d.runtimes runtime_id = none →
      d.call context call_info arguments = .error .incorrectRuntime) ∧
    (∀ runtime_id runtime,
      lookupA d.runtime_lookup call_info.instance_id = some runtime_id →
      lookupA d.runtimes runtime_id = some runtime →
      d.call context call_info arguments =
        runtime.execute context call_info arguments) := by
  refine ⟨?_, ?_, ?_⟩
  · intro h
    simp [Dispatcher.call, h]
  · intro runtime_id h1 h2
    simp [Dispatcher.call, h1, h2]
  · intro runtime_id runtime h1 h2
    simp [Dispatcher.call, h1, h2]

/-- Claim C9 witness: the three routing outcomes at concrete dispatchers — no
lookup entry, a dangling runtime id, and a successful dispatch to
`rtTrivial`. -/
theorem call_routing_witness :
    (Dispatcher.call ⟨[], [], false⟩ exCtx ⟨5, 0⟩ [] = .error .incorrectInstanceId) ∧
    (Dispatcher.call ⟨[], [(5, 9)], false⟩ exCtx ⟨5, 0⟩ [] = .error .incorrectRuntime) ∧
    (exDisp.call exCtx ⟨2, 0⟩ [] = rtTrivial.execute exCtx ⟨2, 0⟩ []) :=
  ⟨(call_routing ⟨[], [], false⟩ exCtx ⟨5, 0⟩ []).1 rfl,
   (call_routing ⟨[], [(5, 9)], false⟩ exCtx ⟨5, 0⟩ []).2.1 9 rfl rfl,
   (call_routing exDisp exCtx ⟨2, 0⟩ []).2.2 1 rtTrivial rfl rfl⟩

/-- `Dispatcher::start_service` never changes the `modified` flag: neither
error outcome nor success touches it. -/
theorem start_service_modified (d : Dispatcher) (fork : DispatcherSchema)
    (spec : InstanceSpec) (constructor : Nat) :
    (∀ d2 f2, (d.start_service fork spec constructor).1 = .ok (d2, f2) →
      d2.modified = d.modified) ∧
    (∀ e d2 f2, (d.start_service fork spec constructor).1 = .err e (d2, f2) →
      d2.modified = d.modified) := by
  constructor
  · intro d2 f2 h
    unfold Dispatcher.start_service at h
    split at h
    · simp at h
    · split at h
      · simp at h
      · split at h
        · simp at h
        · split at h
          · split at h
            · simp at h
            · simp at h
          · simp only [DOutcome.ok.injEq, Prod.mk.injEq] at h
            rw [← h.1]
            rfl
  · intro e d2 f2 h
    unfold Dispatcher.start_service at h
    split at h
    · simp only [DOutcome.err.injEq, Prod.mk.injEq] at h
      rw [← h.2.1]
    · split at h
      · simp only [DOutcome.err.injEq, Prod.mk.injEq] at h
        rw [← h.2.1]
      · split at h
        · simp only [DOutcome.err.injEq, Prod.mk.injEq] at h
          rw [← h.2.1]
        · split at h
          · split at h
            · simp at h
            · simp only [DOutcome.err.injEq, Prod.mk.injEq] at h
              rw [← h.2.1]
          · simp at h

/-- Replaying one deferred action never changes the `modified` flag. -/
theorem daction_execute_modified (a : DAction) (d : Dispatcher)
    (fork : DispatcherSchema) :
    (∀ d2 f2, a.execute d fork = .ok (d2, f2) → d2.modified = d.modified) ∧
    (∀ e d2 f2, a.execute d fork = .err e (d2, f2) → d2.modified = d.modified) := by
  cases a with
  | registerArtifact artifact spec =>
    constructor
    · intro d2 f2 h
      simp only [DAction.execute, Dispatcher.register_artifact, DOutcome.ok.injEq,
        Prod.mk.injEq] at h
      rw [← h.1]
    · intro e d2 f2 h
      simp [DAction.execute, Dispatcher.register_artifact] at h
  | startService artifact instance_name config =>
    constructor
    · intro d2 f2 h
      exact (start_service_modified d (fork.assign_instance_id).2
        ⟨(fork.assign_instance_id).1, instance_name, artifact⟩ config).1 d2 f2 h
    · intro e d2 f2 h
      exact (start_service_modified d (fork.assign_instance_id).2
        ⟨(fork.assign_instance_id).1, instance_name, artifact⟩ config).2 e d2 f2 h

/-- Replaying a list of deferred actions never changes the `modified` flag. -/
theorem runActions_modified (actions : List DAction) :
    ∀ d fork,
    (∀ d2 f2, runActions d fork actions = .ok (d2, f2) → d2.modified = d.modified) ∧
    (∀ e d2 f2, runActions d fork actions = .err e (d2, f2) → d2.modified = d.modified) := by
  induction actions with
  | nil =>
    intro d fork
    constructor
    · intro d2 f2 h
      simp only [runActions, DOutcome.ok.injEq, Prod.mk.injEq] at h
      rw [← h.1]
    · intro e d2 f2 h
      simp [runActions] at h
  | cons a rest ih =>
    intro d fork
    constructor
    · intro d2 f2 h
      simp only [runActions] at h
      cases ha : a.execute d fork with
      | fatal => rw [ha] at h; simp at h
      | err e v => rw [ha] at h; simp at h
      | ok v =>
        rw [ha] at h
        obtain ⟨da, fa⟩ := v
        have h1 := (daction_execute_modified a d fork).1 da fa ha
        have h2 := (ih da fa).1 d2 f2 h
        rw [h2, h1]
    · intro e d2 f2 h
      simp only [runActions] at h
      cases ha : a.execute d fork with
      | fatal => rw [ha] at h; simp at h
      | err e1 v =>
        rw [ha] at h
        obtain ⟨da, fa⟩ := v
        simp only [DOutcome.err.injEq, Prod.mk.injEq] at h
        have h1 := (daction_execute_modified a d fork).2 e1 da fa ha
        rw [← h.2.1, h1]
      | ok v =>
        rw [ha] at h
        obtain ⟨da, fa⟩ := v
        have h1 := (daction_execute_modified a d fork).1 da fa ha
        have h2 := (ih da fa).2 e d2 f2 h
        rw [h2, h1]

/-- Claim C1 (amended): in `Dispatcher::execute`, when the top-level call
succeeds and the deferred-action list taken from the context is non-empty,
the dispatcher is marked as modified (`take_modified_state` returns `true`)
provided every deferred action executes successfully; if some action fails,
`execute` propagates that error through `?` before `mark_as_modified` is
reached, leaving the `modified` flag as it was. -/
theorem execute_marks_modified (d : Dispatcher) (fork : DispatcherSchema)
    (tx_id : Nat) (tx : AnyTx) (context2 : ExecutionContext)
    (hcall : d.call ⟨fork, .transaction tx.author tx_id, []⟩ tx.call_info tx.arguments =
      .ok context2)
    (hne : context2.actions ≠ []) :
    (∀ d2 fork2, runActions d context2.fork context2.actions = .ok (d2, fork2) →
      d.execute fork tx_id tx = .ok (d2.mark_as_modified, fork2) ∧
      (d2.mark_as_modified.take_modified_state).1 = true) ∧
    (∀ e d2 fork2, runActions d context2.fork context2.actions = .err e (d2, fork2) →
      d.execute fork tx_id tx = .err e (d2, fork2) ∧ d2.modified = d.modified) := by
  have hbne : context2.actions.isEmpty = false := by
    cases hac : context2.actions with
    | nil => exact absurd hac hne
    | cons a rest => rfl
  constructor
  · intro d2 fork2 hrun
    refine ⟨?_, rfl⟩
    simp [Dispatcher.execute, hcall, hbne, hrun]
  · intro e d2 fork2 hrun
    refine ⟨?_, (runActions_modified context2.actions d context2.fork).2 e d2 fork2 hrun⟩
    simp [Dispatcher.execute, hcall, hbne, hrun]

/-- Claim C1 witness: in `c1Disp` the call of `c1Tx` queues one
`registerArtifact` action; the replay succeeds, `execute` returns `Ok` and the
dispatcher is marked modified. -/
theorem execute_marks_modified_witness :
    Dispatcher.execute c1Disp exFork 0 c1Tx =
      .ok (c1Disp.mark_as_modified, c1Fork2) ∧
    ((c1Disp.mark_as_modified).take_modified_state).1 = true :=
  (execute_marks_modified c1Disp exFork 0 c1Tx c1Ctx2 rfl (by decide)).1 c1Disp c1Fork2 rfl

/-- Claim C1 counterexample: in `cxDisp` the top-level call of `c1Tx` queues
one deferred `startService` action (so the taken action list is non-empty),
but that action fails with `IncorrectRuntime`; `execute` returns the error
and the dispatcher is NOT marked as modified — `take_modified_state` returns
`false` — refuting the claim that the marking is independent of the action
execution outcome. -/
theorem execute_marks_modified_counterexample :
    Dispatcher.call cxDisp ⟨exFork, .transaction 7 0, []⟩ c1Tx.call_info c1Tx.arguments =
      .ok cxCtx2 ∧
    cxCtx2.actions ≠ [] ∧
    Dispatcher.execute cxDisp exFork 0 c1Tx = .err .incorrectRuntime (cxDisp, cxFork2) ∧
    (cxDisp.take_modified_state).1 = false :=
  ⟨rfl, by decide, rfl, rfl⟩
